import Mathlib

/-
Shallow embedding of the greenhouse edge-to-fog aggregation engine
(src/frontend/modules/edge_fog_aggregator.py) and proofs about it.

Modelling conventions:
* Python floats are modelled as rationals (ℚ); `datetime` instants are ℚ
  seconds (only differences of instants matter to the code), and
  `timedelta.total_seconds()` is plain subtraction.
* Python dicts are association lists (`List (κ × β)`) looked up with
  `alookup`; insertion-order iteration of a dict matches list order, and
  assigning to an existing key replaces the value in place (`dictInsert`).
* The source keys its buffers by the string `f"{sensor_type.value}_{location}"`
  and its aggregate history by `f"{type}_{loc}_{window}"`; we key by the
  corresponding tuples directly.  (The source's re-parse of buffer keys with
  `key.split('_', 1)` mis-splits sensor types whose value contains an
  underscore; none of the properties below depends on that re-parse, and the
  concrete states used here only involve cleanly parsed keys.)
* `datetime.now()` is impure; every function that calls it takes the sampled
  instant as an explicit argument, and a whole aggregation tick takes a
  stream `nows : ℕ → ℚ` giving the sample returned by the i-th call made
  during that tick.
* `uuid.uuid4()` is impure; the fresh id is an explicit argument.
* Qt signal emissions are modelled as returned lists of payloads.
* Python division raises on zero; every division below is syntactically
  guarded by the source exactly where the source guards it, so ℚ's total
  division (x / 0 = 0) is never exercised on the guarded paths.
-/

/-- Embedding of the `SensorType` enumeration. -/
inductive SensorType where
  | temperature
  | humidity
  | soil_moisture
  | light_intensity
  | co2_level
  | soil_ph
  deriving DecidableEq, Repr, Inhabited

/-- The `.value` string of a `SensorType` member. -/
def sensorTypeValue : SensorType → String
  | .temperature => "temperature"
  | .humidity => "humidity"
  | .soil_moisture => "soil_moisture"
  | .light_intensity => "light_intensity"
  | .co2_level => "co2_level"
  | .soil_ph => "soil_ph"

/-- The list of all `SensorType` members, in declaration order
(`list(SensorType)` in the source). -/
def sensorTypeAll : List SensorType :=
  [.temperature, .humidity, .soil_moisture, .light_intensity, .co2_level, .soil_ph]

/-- Embedding of the `SensorReading` dataclass. -/
structure SensorReading where
  device_id : String
  sensor_type : SensorType
  value : ℚ
  timestamp : ℚ
  location : String
  quality : ℚ
  battery_level : Option ℚ
  signal_strength : Option ℚ
  deriving DecidableEq, Repr, Inhabited

/-- Embedding of the `AggregatedData` dataclass.  The source stores
`std_dev = variance ** 0.5`; since that square root is irrational we store
the radicand `std_dev_sq` (the sample variance) and relate the source's
`std_dev` to it through `Real.sqrt` in the theorems. -/
structure AggregatedData where
  timeframe : String
  sensor_type : SensorType
  average : ℚ
  min : ℚ
  max : ℚ
  count : ℕ
  std_dev_sq : ℚ
  timestamp : ℚ
  quality_score : ℚ
  location : String
  deriving DecidableEq, Repr, Inhabited

/-- Embedding of the `Anomaly` dataclass. -/
structure Anomaly where
  anomaly_id : String
  sensor_type : SensorType
  location : String
  anomaly_type : String
  severity : String
  message : String
  timestamp : ℚ
  value : ℚ
  expected_range : ℚ × ℚ
  deriving DecidableEq, Repr, Inhabited

/-- The plain `{'type', 'severity', 'message'}` dict returned by the advanced
detectors before it is turned into an `Anomaly`. -/
structure AnomalyInfo where
  type : String
  severity : String
  message : String
  deriving DecidableEq, Repr, Inhabited

/-- Dict lookup on an association list (Python `d[k]` / `k in d`). -/
def alookup {α β : Type} [DecidableEq α] (l : List (α × β)) (k : α) : Option β :=
  (l.find? (fun p => decide (p.1 = k))).map (fun p => p.2)

/-- Dict assignment `d[k] = v`: replaces the value in place when the key is
present (dict size and position unchanged), appends otherwise. -/
def dictInsert {α β : Type} [DecidableEq α] (l : List (α × β)) (k : α) (v : β) :
    List (α × β) :=
  if (alookup l k).isSome then
    l.map (fun p => if p.1 = k then (k, v) else p)
  else
    l ++ [(k, v)]

/-- The `self.aggregation_windows` dict: window name to window length in
seconds, in insertion order. -/
def aggregation_windows : List (String × ℚ) :=
  [("1min", 60), ("5min", 300), ("15min", 900), ("1h", 3600)]

/-- The `self.expected_ranges` dict.  Every `SensorType` member has an entry,
so lookup never misses; the `Option` mirrors the source's `in` test. -/
def expected_ranges : SensorType → Option (ℚ × ℚ)
  | .temperature => some (15, 35)
  | .humidity => some (30, 80)
  | .soil_moisture => some (20, 80)
  | .light_intensity => some (0, 1000)
  | .co2_level => some (300, 1500)
  | .soil_ph => some (11/2, 15/2)

/-- Python `min(l)` on a non-empty list (the empty case is unreachable at
every call site, which guards on non-emptiness). -/
def listMin (l : List ℚ) : ℚ :=
  match l with
  | [] => 0
  | x :: xs => xs.foldl min x

/-- Python `max(l)` on a non-empty list. -/
def listMax (l : List ℚ) : ℚ :=
  match l with
  | [] => 0
  | x :: xs => xs.foldl max x

/-- Embedding of `EdgeToFogAggregator._calculate_std_dev` up to the final
`** 0.5`: it returns the radicand (0 when `len(values) <= 1`, else the
sample variance with divisor n−1); the source's return value is
`Real.sqrt` of this. -/
def calculate_std_dev_sq (values : List ℚ) : ℚ :=
  if values.length ≤ 1 then 0
  else
    let mean := values.sum / (values.length : ℚ)
    (values.map (fun x => (x - mean) ^ 2)).sum / ((values.length : ℚ) - 1)

/-- The window filter of `aggregate_data` (the `recent_readings` list
comprehension): the readings whose timestamp lies within
`window_seconds` of `current_time`. -/
def window_readings (readings : List SensorReading) (window_seconds : ℚ)
    (current_time : ℚ) : List SensorReading :=
  readings.filter (fun r => decide (current_time - r.timestamp ≤ window_seconds))

/-- The `values` list of `aggregate_data`. -/
def window_values (rs : List SensorReading) : List ℚ :=
  rs.map (fun r => r.value)

/-- The `quality_scores` list of `aggregate_data`. -/
def window_qualities (rs : List SensorReading) : List ℚ :=
  rs.map (fun r => r.quality)

/-- Sample standard deviation as the spec words it, up to the square root:
the radicand `Σ(x_i − mean)² / (n−1)` with `mean` the arithmetic mean.
Stated from the spec to be compared with `calculate_std_dev_sq`, which is
read off the source. -/
def specSampleVariance (values : List ℚ) : ℚ :=
  (values.map (fun x => (x - values.sum / (values.length : ℚ)) ^ 2)).sum /
    ((values.length : ℚ) - 1)

/-- The raw-reading buffer `self.raw_data_buffer`, keyed by
(sensor_type, location). -/
abbrev RawBuffer : Type := List ((SensorType × String) × List SensorReading)

/-- The aggregate history `self.aggregated_data`, keyed by
(sensor_type, location, timeframe). -/
abbrev AggStore : Type := List ((SensorType × String × String) × List AggregatedData)

/-- Embedding of `EdgeToFogAggregator.aggregate_data`.  `current_time` is the
value of the single `datetime.now()` call the method makes; it is used both
to filter the window and as the produced aggregate's timestamp. -/
def aggregate_data (buffer : RawBuffer) (sensor_type : SensorType)
    (location : String) (window : String) (current_time : ℚ) :
    Option AggregatedData :=
  match alookup buffer (sensor_type, location) with
  | none => none
  | some readings =>
    match alookup aggregation_windows window with
    | none => none
    | some window_seconds =>
      let recent_readings := window_readings readings window_seconds current_time
      if recent_readings.isEmpty then none
      else
        let values := window_values recent_readings
        let quality_scores := window_qualities recent_readings
        let total_quality := quality_scores.sum
        let average :=
          if 0 < total_quality then
            ((values.zip quality_scores).map (fun p => p.1 * p.2)).sum / total_quality
          else
            values.sum / (values.length : ℚ)
        some {
          timeframe := window
          sensor_type := sensor_type
          average := average
          min := listMin values
          max := listMax values
          count := values.length
          std_dev_sq := calculate_std_dev_sq values
          timestamp := current_time
          quality_score := quality_scores.sum / (quality_scores.length : ℚ)
          location := location }

/-- Embedding of `EdgeToFogAggregator.check_immediate_anomalies`.  `now` is
the `datetime.now()` sample used as the anomaly timestamp and `fresh_id` the
`uuid.uuid4()` value; the returned list holds the anomalies appended to
`self.anomalies` (and emitted) by this call, in order.  The source's
`:.1f`-formatted message is rendered with plain `toString` of the rational
(the numeric rendering is not under verification). -/
def check_immediate_anomalies (reading : SensorReading) (now : ℚ)
    (fresh_id : String) : List Anomaly :=
  match expected_ranges reading.sensor_type with
  | none => []
  | some (min_expected, max_expected) =>
    if reading.value < min_expected ∨ max_expected < reading.value then
      [{ anomaly_id := fresh_id
         sensor_type := reading.sensor_type
         location := reading.location
         anomaly_type := "out_of_range"
         severity :=
           if 10 < |reading.value - (min_expected + max_expected) / 2| then
             "critical"
           else "warning"
         message :=
           sensorTypeValue reading.sensor_type ++ " out of range: " ++
             toString reading.value ++ " (expected " ++
             toString min_expected ++ "-" ++ toString max_expected ++ ")"
         timestamp := now
         value := reading.value
         expected_range := (min_expected, max_expected) }]
    else []

/-- The aggregate-history key `f"{type}_{loc}_{window}"` of an aggregate,
as a tuple. -/
def aggKey (agg : AggregatedData) : SensorType × String × String :=
  (agg.sensor_type, agg.location, agg.timeframe)

/-- Embedding of `EdgeToFogAggregator.detect_rate_of_change_anomaly`.
`store` is `self.aggregated_data`; by the time this runs the fresh aggregate
`current_agg` has already been appended to its key's list, so `hist[-2]` is
the immediately preceding aggregate. -/
def detect_rate_of_change_anomaly (store : AggStore)
    (current_agg : AggregatedData) : Option AnomalyInfo :=
  match alookup store (aggKey current_agg) with
  | none => none
  | some hist =>
    if 2 ≤ hist.length then
      let previous_data := hist.getD (hist.length - 2) default
      let time_diff := (current_agg.timestamp - previous_data.timestamp) / 60
      if 0 < time_diff then
        let rate_of_change := |current_agg.average - previous_data.average| / time_diff
        if 5 < rate_of_change then
          some { type := "rapid_change"
                 severity := "warning"
                 message := "Rapid change in " ++
                   sensorTypeValue current_agg.sensor_type ++ ": " ++
                   toString rate_of_change ++ "/min" }
        else none
      else none
    else none

/-- The `"increasing" if values[-1] > values[0] else "decreasing"` label of
`detect_trend_anomaly` (`values` is non-empty at the call site). -/
def trendLabel (values : List ℚ) : String :=
  if values.headD 0 < values.getLastD 0 then "increasing" else "decreasing"

/-- Embedding of `EdgeToFogAggregator.detect_trend_anomaly`: with at least 5
aggregates stored for the key, the averages of the last 5 are tested for
being strictly increasing at every consecutive pair, or strictly decreasing
at every consecutive pair (`List.Chain'` renders the source's
`all(values[i] < values[i+1] for i in range(len(values)-1))`). -/
def detect_trend_anomaly (store : AggStore) (current_agg : AggregatedData) :
    Option AnomalyInfo :=
  match alookup store (aggKey current_agg) with
  | none => none
  | some hist =>
    if 5 ≤ hist.length then
      let recent_data := hist.drop (hist.length - 5)
      let values := recent_data.map (fun agg => agg.average)
      if List.Chain' (fun a b => a < b) values ∨
          List.Chain' (fun a b => b < a) values then
        some { type := "sustained_trend"
               severity := "info"
               message := "Sustained " ++ trendLabel values ++ " trend in " ++
                 sensorTypeValue current_agg.sensor_type }
      else none
    else none

/-- The sequence of `aggregate_data` calls one `run_periodic_aggregation`
tick makes: for every buffer key in dict order, for every window in
`aggregation_windows` order. -/
def tick_calls (buffer : RawBuffer) : List (SensorType × String × String) :=
  buffer.flatMap (fun kv =>
    aggregation_windows.map (fun wp => (kv.1.1, kv.1.2, wp.1)))

/-- The aggregates produced (stored and emitted) by one
`run_periodic_aggregation` tick.  Each `aggregate_data` call samples
`datetime.now()` itself; `nows i` is the sample returned to the i-th call of
the tick. -/
def run_periodic_aggregation_aggs (buffer : RawBuffer) (nows : ℕ → ℚ) :
    List AggregatedData :=
  (tick_calls buffer).enum.filterMap (fun p =>
    aggregate_data buffer p.2.1 p.2.2.1 p.2.2.2 (nows p.1))

/-- Embedding of an `self.edge_devices` entry (a plain dict in the source). -/
structure EdgeDevice where
  type : String
  location : String
  capabilities : List SensorType
  ip_address : Option String
  last_seen : ℚ
  status : String
  battery_level : ℚ
  registered_at : ℚ
  deriving DecidableEq, Repr, Inhabited

/-- The device table `self.edge_devices`. -/
abbrev DeviceTable : Type := List (String × EdgeDevice)

/-- Payload of the `device_status_changed` signal emitted by
`update_device_status`. -/
structure StatusChangedInfo where
  device_id : String
  status : String
  battery_level : Option ℚ
  last_seen : ℚ
  deriving DecidableEq, Repr, Inhabited

/-- Embedding of `EdgeToFogAggregator.update_device_status`.  Returns the new
device table and the list of `device_status_changed` payloads emitted.  The
three `datetime.now()` calls of the method all happen inside one guarded
block; `now` is their common sample (only its reuse, not sub-second drift,
is under verification). -/
def update_device_status (devices : DeviceTable) (device_id : String)
    (status : String) (battery_level : Option ℚ) (now : ℚ) :
    DeviceTable × List StatusChangedInfo :=
  match alookup devices device_id with
  | none => (devices, [])
  | some _ =>
    let devices' := devices.map (fun p =>
      if p.1 = device_id then
        (device_id, { p.2 with
                      last_seen := now
                      status := status
                      battery_level := (battery_level.getD p.2.battery_level) })
      else p)
    (devices', [{ device_id := device_id
                  status := status
                  battery_level := battery_level
                  last_seen := now }])

/-- Payload of the `device_status_changed` signal emitted by
`register_edge_device`. -/
structure RegisteredInfo where
  device_id : String
  status : String
  location : String
  capabilities : List String
  deriving DecidableEq, Repr, Inhabited

/-- Embedding of `EdgeToFogAggregator.register_edge_device`: dict assignment
`self.edge_devices[device_id] = {...}` plus the emitted notification. -/
def register_edge_device (devices : DeviceTable) (device_id : String)
    (device_type : String) (location : String)
    (capabilities : List SensorType) (ip_address : Option String) (now : ℚ) :
    DeviceTable × List RegisteredInfo :=
  (dictInsert devices device_id
    { type := device_type
      location := location
      capabilities := capabilities
      ip_address := ip_address
      last_seen := now
      status := "online"
      battery_level := 100
      registered_at := now },
   [{ device_id := device_id
      status := "registered"
      location := location
      capabilities := capabilities.map sensorTypeValue }])

/-- Embedding of `EdgeToFogAggregator.get_device_status`: one snapshot dict
per device-table entry, in dict order. -/
def get_device_status (devices : DeviceTable) :
    List (String × String × String × String × ℚ × ℚ × List String) :=
  devices.map (fun p =>
    (p.1, p.2.type, p.2.location, p.2.status, p.2.battery_level,
     p.2.last_seen, p.2.capabilities.map sensorTypeValue))

/-- Python `sorted(anomalies, key=lambda x: x.timestamp, reverse=True)`:
a stable sort putting larger timestamps first. -/
def sortAnomaliesDesc (anomalies : List Anomaly) : List Anomaly :=
  anomalies.mergeSort (fun a b => decide (b.timestamp ≤ a.timestamp))

/-- Embedding of the anomaly-history branch of
`EdgeToFogAggregator.cleanup_old_data`: when more than 100 anomalies are
stored, keep the first 100 of the timestamp-descending order. -/
def cleanup_anomalies (anomalies : List Anomaly) : List Anomaly :=
  if 100 < anomalies.length then
    (sortAnomaliesDesc anomalies).take 100
  else anomalies

/-- Embedding of the raw-buffer branch of `cleanup_old_data`: drop readings
older than 2 hours, then drop emptied keys. -/
def cleanup_raw_buffer (buffer : RawBuffer) (current_time : ℚ) : RawBuffer :=
  (buffer.map (fun kv =>
    (kv.1, kv.2.filter (fun r => decide (current_time - r.timestamp < 7200))))).filter
    (fun kv => decide (kv.2 ≠ []))

/-- Embedding of the aggregate-history branch of `cleanup_old_data`: drop
aggregates older than 24 hours, then drop emptied keys. -/
def cleanup_agg_store (store : AggStore) (current_time : ℚ) : AggStore :=
  (store.map (fun kv =>
    (kv.1, kv.2.filter (fun a => decide (current_time - a.timestamp < 86400))))).filter
    (fun kv => decide (kv.2 ≠ []))

/-- Embedding of `EdgeToFogAggregator.cleanup_old_data` on the three pruned
collections (`current_time` is the tick's `datetime.now()` sample). -/
def cleanup_old_data (buffer : RawBuffer) (store : AggStore)
    (anomalies : List Anomaly) (current_time : ℚ) :
    RawBuffer × AggStore × List Anomaly :=
  (cleanup_raw_buffer buffer current_time,
   cleanup_agg_store store current_time,
   cleanup_anomalies anomalies)

/-- The windows `get_aggregated_metrics` iterates (`['1min', '5min',
'15min']` in the source; note `'1h'` is absent). -/
def metricWindows : List String := ["1min", "5min", "15min"]

/-- Embedding of `EdgeToFogAggregator.get_aggregated_metrics` with both
optional arguments omitted: the locations iterated are the set of registered
devices' locations (`dedup` fixes one enumeration order of the Python set),
the sensor types are all of `SensorType`, and a window entry appears exactly
when `aggregate_data` returns a truthy value.  Each `aggregate_data` call
samples `datetime.now()`; `nows i` is the i-th call's sample. -/
def get_aggregated_metrics (devices : DeviceTable) (buffer : RawBuffer)
    (nows : ℕ → ℚ) :
    List (String × List (SensorType × List (String × AggregatedData))) :=
  let locations := (devices.map (fun p => p.2.location)).dedup
  (locations.enum.map (fun lp =>
    (lp.2, sensorTypeAll.enum.map (fun sp =>
      (sp.2, metricWindows.enum.filterMap (fun wp =>
        (aggregate_data buffer sp.2 lp.2 wp.2
            (nows (lp.1 * (sensorTypeAll.length * metricWindows.length) +
                   sp.1 * metricWindows.length + wp.1))).map
          (fun agg => (wp.2, agg))))))))

/-! ### Concrete states used by the witnesses and counterexamples -/

/-- A temperature reading at location "gh1" with the given value, quality and
timestamp. -/
def mkReading (v q t : ℚ) : SensorReading :=
  { device_id := "dev1"
    sensor_type := .temperature
    value := v
    timestamp := t
    location := "gh1"
    quality := q
    battery_level := none
    signal_strength := none }

/-- Two readings with distinct qualities (weighted mean 12.5, unweighted 15). -/
def exReadingsC1 : List SensorReading := [mkReading 10 1 0, mkReading 20 (1/3) 0]

/-- Buffer holding `exReadingsC1` under (temperature, "gh1"). -/
def exBufferC1 : RawBuffer := [((.temperature, "gh1"), exReadingsC1)]

/-- The aggregate `aggregate_data exBufferC1 temperature "gh1" "1min" 0`
produces. -/
def exAggC1 : AggregatedData :=
  { timeframe := "1min"
    sensor_type := .temperature
    average := 25/2
    min := 10
    max := 20
    count := 2
    std_dev_sq := 50
    timestamp := 0
    quality_score := 2/3
    location := "gh1" }

/-- Four readings of value 10, quality 1 (the spec's [10, 10, 10, 10] window). -/
def exReadingsC2 : List SensorReading :=
  [mkReading 10 1 0, mkReading 10 1 0, mkReading 10 1 0, mkReading 10 1 0]

/-- Buffer holding `exReadingsC2` under (temperature, "gh1"). -/
def exBufferC2 : RawBuffer := [((.temperature, "gh1"), exReadingsC2)]

/-- The aggregate `aggregate_data exBufferC2 temperature "gh1" "1min" 0`
produces. -/
def exAggC2 : AggregatedData :=
  { timeframe := "1min"
    sensor_type := .temperature
    average := 10
    min := 10
    max := 10
    count := 4
    std_dev_sq := 0
    timestamp := 0
    quality_score := 1
    location := "gh1" }

/-- A temperature reading of 50.0 (expected range 15-35). -/
def exReadingTemp50 : SensorReading := mkReading 50 1 0

/-- A humidity reading of 55.0 (expected range 30-80). -/
def exReadingHum55 : SensorReading :=
  { device_id := "dev1"
    sensor_type := .humidity
    value := 55
    timestamp := 0
    location := "gh1"
    quality := 1
    battery_level := none
    signal_strength := none }

/-- A one-reading "1min" aggregate for (temperature, "gh1") with the given
average and timestamp. -/
def mkAgg (avg t : ℚ) : AggregatedData :=
  { timeframe := "1min"
    sensor_type := .temperature
    average := avg
    min := avg
    max := avg
    count := 1
    std_dev_sq := 0
    timestamp := t
    quality_score := 1
    location := "gh1" }

/-- Aggregate history with two entries one minute apart whose averages differ
by 10 (rate 10 units/minute). -/
def exStoreC4 : AggStore :=
  [((.temperature, "gh1", "1min"), [mkAgg 10 0, mkAgg 20 60])]

/-- Aggregate history with five entries of strictly increasing averages
[1, 2, 3, 4, 5]. -/
def exStoreC5 : AggStore :=
  [((.temperature, "gh1", "1min"),
    [mkAgg 1 0, mkAgg 2 60, mkAgg 3 120, mkAgg 4 180, mkAgg 5 240])]

/-- Aggregate history with five entries of non-monotonic averages
[5, 3, 3, 4, 5]. -/
def exStoreC5n : AggStore :=
  [((.temperature, "gh1", "1min"),
    [mkAgg 5 0, mkAgg 3 60, mkAgg 3 120, mkAgg 4 180, mkAgg 5 240])]

/-- Buffer with a single fresh reading under (temperature, "gh1"). -/
def exBufferC6 : RawBuffer := [((.temperature, "gh1"), [mkReading 20 1 0])]

/-- A clock whose i-th `datetime.now()` sample is 10·i seconds: time visibly
advances between the calls of one tick. -/
def exNowsC6 : ℕ → ℚ := fun i => 10 * i

/-- A constant clock, every sample equal to 7. -/
def exNowsConst : ℕ → ℚ := fun _ => 7

/-- An anomaly whose timestamp is the second `i`. -/
def mkAnom (i : ℕ) : Anomaly :=
  { anomaly_id := toString i
    sensor_type := .temperature
    location := "gh1"
    anomaly_type := "out_of_range"
    severity := "warning"
    message := "m"
    timestamp := (i : ℚ)
    value := 0
    expected_range := (15, 35) }

/-- 101 anomalies with timestamps 0, 1, ..., 100. -/
def exAnoms101 : List Anomaly := (List.range 101).map mkAnom

/-- 3 anomalies with timestamps 0, 1, 2. -/
def exAnomsSmall : List Anomaly := (List.range 3).map mkAnom

/-- A registered device at location "gh1". -/
def exDevice : EdgeDevice :=
  { type := "sensor_node"
    location := "gh1"
    capabilities := [.temperature]
    ip_address := none
    last_seen := 0
    status := "online"
    battery_level := 100
    registered_at := 0 }

/-- Device table with the single device "dev1". -/
def exDevices : DeviceTable := [("dev1", exDevice)]

/-- The aggregate the tick's first call (window "1min", sample
`exNowsC6 0 = 0`) produces on `exBufferC6`. -/
def exAggC6a : AggregatedData :=
  { timeframe := "1min"
    sensor_type := .temperature
    average := 20
    min := 20
    max := 20
    count := 1
    std_dev_sq := 0
    timestamp := 0
    quality_score := 1
    location := "gh1" }

/-- The aggregate the tick's second call (window "5min", sample
`exNowsC6 1 = 10`) produces on `exBufferC6`. -/
def exAggC6b : AggregatedData :=
  { timeframe := "5min"
    sensor_type := .temperature
    average := 20
    min := 20
    max := 20
    count := 1
    std_dev_sq := 0
    timestamp := 10
    quality_score := 1
    location := "gh1" }

/-- Buffer whose only key is (temperature, "ghost") — a location with no
registered device. -/
def exBufferC10 : RawBuffer := [((.temperature, "ghost"), [mkReading 20 1 0])]

/-! ### Theorems -/

/-- Auxiliary: mapping `quality` over readings of quality 1 yields a
replicate of 1s. -/
theorem qualities_of_all_one {l : List SensorReading}
    (h : ∀ r ∈ l, r.quality = 1) :
    window_qualities l = List.replicate l.length 1 := by
  induction l with
  | nil => rfl
  | cons a t ih =>
    have ha : a.quality = 1 := h a (List.mem_cons_self a t)
    have ht : ∀ r ∈ t, r.quality = 1 := fun r hr => h r (List.mem_cons_of_mem a hr)
    simp only [window_qualities, List.map_cons, List.length_cons,
      List.replicate_succ, ha]
    exact congrArg (List.cons 1) (ih ht)

/-- Auxiliary: weighting every value by 1 leaves the sum of values. -/
theorem zip_replicate_one_sum (values : List ℚ) :
    ((values.zip (List.replicate values.length (1 : ℚ))).map
      (fun p => p.1 * p.2)).sum = values.sum := by
  induction values with
  | nil => rfl
  | cons a t ih =>
    simp only [List.length_cons, List.replicate_succ, List.zip_cons_cons,
      List.map_cons, List.sum_cons, mul_one, ih]

/-- C1: for every aggregation window whose filtered subset of readings is
non-empty, the produced aggregate's average is the quality-weighted mean
`Σ(value·quality) / Σ(quality)` when `Σ(quality) > 0` and the unweighted
arithmetic mean when `Σ(quality) = 0` (so no division by zero is performed);
in particular, when every filtered reading has quality 1 the average is the
plain arithmetic mean of the values. -/
theorem aggregate_average_quality_weighted (buffer : RawBuffer)
    (st : SensorType) (loc w : String) (now wsec : ℚ)
    (readings : List SensorReading) (agg : AggregatedData)
    (hr : alookup buffer (st, loc) = some readings)
    (hw : alookup aggregation_windows w = some wsec)
    (hagg : aggregate_data buffer st loc w now = some agg) :
    (0 < (window_qualities (window_readings readings wsec now)).sum →
      agg.average =
        (((window_values (window_readings readings wsec now)).zip
            (window_qualities (window_readings readings wsec now))).map
          (fun p => p.1 * p.2)).sum /
        (window_qualities (window_readings readings wsec now)).sum)
    ∧ ((window_qualities (window_readings readings wsec now)).sum = 0 →
      agg.average =
        (window_values (window_readings readings wsec now)).sum /
        ((window_values (window_readings readings wsec now)).length : ℚ))
    ∧ ((∀ r ∈ window_readings readings wsec now, r.quality = 1) →
      agg.average =
        (window_values (window_readings readings wsec now)).sum /
        ((window_values (window_readings readings wsec now)).length : ℚ)) := by
  unfold aggregate_data at hagg
  rw [hr, hw] at hagg
  dsimp only at hagg
  by_cases hne : (window_readings readings wsec now).isEmpty = true
  · rw [if_pos hne] at hagg
    exact Option.noConfusion hagg
  · rw [if_neg hne] at hagg
    injection hagg with hrec
    subst hrec
    refine ⟨fun hq => ?_, fun hq => ?_, fun hq => ?_⟩
    · exact if_pos hq
    · have : ¬ 0 < (window_qualities (window_readings readings wsec now)).sum := by
        rw [hq]; exact lt_irrefl 0
      exact if_neg this
    · have hrep : window_qualities (window_readings readings wsec now)
          = List.replicate (window_readings readings wsec now).length 1 :=
        qualities_of_all_one hq
      have hlen : (window_values (window_readings readings wsec now)).length
          = (window_readings readings wsec now).length := by
        simp [window_values]
      have hnil : window_readings readings wsec now ≠ [] := by
        intro hcon
        exact hne (by simp [hcon])
      have hpos : 0 < ((window_readings readings wsec now).length : ℚ) := by
        have := List.length_pos.mpr hnil
        exact_mod_cast this
      have hsum : (window_qualities (window_readings readings wsec now)).sum
          = ((window_readings readings wsec now).length : ℚ) := by
        rw [hrep, List.sum_replicate, nsmul_eq_mul, mul_one]
      have hqpos : 0 < (window_qualities (window_readings readings wsec now)).sum := by
        rw [hsum]; exact hpos
      have hgoal : (if 0 < (window_qualities (window_readings readings wsec now)).sum
          then (((window_values (window_readings readings wsec now)).zip
              (window_qualities (window_readings readings wsec now))).map
            (fun p => p.1 * p.2)).sum /
            (window_qualities (window_readings readings wsec now)).sum
          else (window_values (window_readings readings wsec now)).sum /
            ((window_values (window_readings readings wsec now)).length : ℚ))
          = (window_values (window_readings readings wsec now)).sum /
            ((window_values (window_readings readings wsec now)).length : ℚ) := by
        rw [if_pos hqpos, hrep, ← hlen, zip_replicate_one_sum, List.sum_replicate,
          nsmul_eq_mul, mul_one]
      exact hgoal

/-- C1 witness: the quality-weighted average of values [10, 20] with
qualities [1, 1/3] is 12.5 (Σ(v·q)/Σq = (50/3)/(4/3)), not the unweighted 15;
the hypotheses of the theorem are discharged on this concrete buffer. -/
theorem aggregate_average_quality_weighted_witness :
    aggregate_data exBufferC1 SensorType.temperature "gh1" "1min" 0
      = some exAggC1 ∧
    exAggC1.average = 25/2 ∧
    exAggC1.average =
      (((window_values (window_readings exReadingsC1 60 0)).zip
          (window_qualities (window_readings exReadingsC1 60 0))).map
        (fun p => p.1 * p.2)).sum /
      (window_qualities (window_readings exReadingsC1 60 0)).sum := by
  have hagg : aggregate_data exBufferC1 SensorType.temperature "gh1" "1min" 0
      = some exAggC1 := by
    norm_num [aggregate_data, alookup, aggregation_windows, exBufferC1,
      exReadingsC1, mkReading, window_readings, window_values, window_qualities,
      listMin, listMax, calculate_std_dev_sq, exAggC1, List.filter, List.find?]
  refine ⟨hagg, by norm_num [exAggC1], ?_⟩
  exact (aggregate_average_quality_weighted exBufferC1 SensorType.temperature
      "gh1" "1min" 0 60 exReadingsC1 exAggC1 rfl rfl hagg).1
    (by norm_num [window_qualities, window_readings, exReadingsC1, mkReading,
      List.filter])

/-- C2: the aggregate's `std_dev` is the square root of the sample variance
`Σ(x_i − mean)² / (n−1)` of the raw window values when n ≥ 2, and its
radicand is exactly 0 when n = 1 (so `std_dev = 0` there). -/
theorem aggregate_std_dev_sample (buffer : RawBuffer)
    (st : SensorType) (loc w : String) (now wsec : ℚ)
    (readings : List SensorReading) (agg : AggregatedData)
    (hr : alookup buffer (st, loc) = some readings)
    (hw : alookup aggregation_windows w = some wsec)
    (hagg : aggregate_data buffer st loc w now = some agg) :
    (2 ≤ agg.count →
      Real.sqrt (agg.std_dev_sq : ℝ) =
        Real.sqrt ((specSampleVariance
          (window_values (window_readings readings wsec now)) : ℚ) : ℝ))
    ∧ (agg.count = 1 → agg.std_dev_sq = 0) := by
  unfold aggregate_data at hagg
  rw [hr, hw] at hagg
  dsimp only at hagg
  by_cases hne : (window_readings readings wsec now).isEmpty = true
  · rw [if_pos hne] at hagg
    exact Option.noConfusion hagg
  · rw [if_neg hne] at hagg
    injection hagg with hrec
    subst hrec
    constructor
    · intro h2
      have h2' : 2 ≤ (window_values (window_readings readings wsec now)).length := h2
      have hvar : calculate_std_dev_sq (window_values (window_readings readings wsec now))
          = specSampleVariance (window_values (window_readings readings wsec now)) := by
        unfold calculate_std_dev_sq specSampleVariance
        rw [if_neg (by omega)]
      show Real.sqrt ((calculate_std_dev_sq
          (window_values (window_readings readings wsec now)) : ℚ) : ℝ) = _
      rw [hvar]
    · intro h1
      have h1' : (window_values (window_readings readings wsec now)).length = 1 := h1
      show calculate_std_dev_sq (window_values (window_readings readings wsec now)) = 0
      unfold calculate_std_dev_sq
      rw [if_pos (by omega)]

/-- C2 witness: the window of values [10, 10, 10, 10] with quality all 1
yields average 10, min 10, max 10, count 4 and a zero standard deviation,
and the n ≥ 2 branch of the theorem is discharged on it. -/
theorem aggregate_std_dev_sample_witness :
    aggregate_data exBufferC2 SensorType.temperature "gh1" "1min" 0
      = some exAggC2 ∧
    exAggC2.average = 10 ∧ exAggC2.min = 10 ∧ exAggC2.max = 10 ∧
    exAggC2.count = 4 ∧ exAggC2.std_dev_sq = 0 ∧
    Real.sqrt ((exAggC2.std_dev_sq : ℚ) : ℝ) = 0 ∧
    Real.sqrt ((exAggC2.std_dev_sq : ℚ) : ℝ) =
      Real.sqrt ((specSampleVariance
        (window_values (window_readings exReadingsC2 60 0)) : ℚ) : ℝ) := by
  have hagg : aggregate_data exBufferC2 SensorType.temperature "gh1" "1min" 0
      = some exAggC2 := by
    norm_num [aggregate_data, alookup, aggregation_windows, exBufferC2,
      exReadingsC2, mkReading, window_readings, window_values, window_qualities,
      listMin, listMax, calculate_std_dev_sq, exAggC2, List.filter, List.find?]
  refine ⟨hagg, rfl, rfl, rfl, rfl, rfl,
    by show Real.sqrt ((0 : ℚ) : ℝ) = 0; simp, ?_⟩
  exact (aggregate_std_dev_sample exBufferC2 SensorType.temperature "gh1"
      "1min" 0 60 exReadingsC2 exAggC2 rfl rfl hagg).1 (by norm_num [exAggC2])

/-- C3: for a submitted reading whose sensor type has expected range
[lo, hi], exactly one out_of_range anomaly is produced when the value lies
outside the range — with severity critical exactly when the distance from
the midpoint (lo+hi)/2 exceeds 10, warning otherwise — and none when the
value lies inside the range. -/
theorem immediate_out_of_range (reading : SensorReading) (lo hi : ℚ)
    (now : ℚ) (fresh_id : String)
    (h : expected_ranges reading.sensor_type = some (lo, hi)) :
    ((reading.value < lo ∨ hi < reading.value) →
      (check_immediate_anomalies reading now fresh_id).length = 1 ∧
      ∀ a ∈ check_immediate_anomalies reading now fresh_id,
        a.anomaly_type = "out_of_range" ∧
        a.severity = (if 10 < |reading.value - (lo + hi) / 2| then "critical"
          else "warning"))
    ∧ ((lo ≤ reading.value ∧ reading.value ≤ hi) →
      check_immediate_anomalies reading now fresh_id = []) := by
  unfold check_immediate_anomalies
  rw [h]
  dsimp only
  constructor
  · intro hout
    rw [if_pos hout]
    refine ⟨rfl, ?_⟩
    intro a ha
    rw [List.mem_singleton] at ha
    subst ha
    exact ⟨rfl, rfl⟩
  · intro hin
    rw [if_neg ?hno]
    case hno =>
      rintro (hc | hc)
      · exact absurd hc (not_lt.mpr hin.1)
      · exact absurd hc (not_lt.mpr hin.2)

/-- C3 witness: a temperature reading of 50.0 (range 15-35, midpoint
distance 25) yields exactly one critical out_of_range anomaly, and a
humidity reading of 55.0 (range 30-80) yields none. -/
theorem immediate_out_of_range_witness :
    (check_immediate_anomalies exReadingTemp50 0 "id0").length = 1 ∧
    (∀ a ∈ check_immediate_anomalies exReadingTemp50 0 "id0",
      a.anomaly_type = "out_of_range" ∧ a.severity = "critical") ∧
    check_immediate_anomalies exReadingHum55 0 "id0" = [] := by
  have htemp := (immediate_out_of_range exReadingTemp50 15 35 0 "id0" rfl).1
    (by norm_num [exReadingTemp50, mkReading])
  refine ⟨htemp.1, ?_, ?_⟩
  · intro a ha
    obtain ⟨h1, h2⟩ := htemp.2 a ha
    refine ⟨h1, ?_⟩
    rw [h2, if_pos (by norm_num [exReadingTemp50, mkReading])]
  · exact (immediate_out_of_range exReadingHum55 30 80 0 "id0" rfl).2
      (by norm_num [exReadingHum55])

/-- C4: with `hist` the stored aggregate list for the fresh aggregate's key
(the fresh aggregate has already been appended, so element [-2] is the
immediately preceding one), a rapid_change anomaly is produced iff at least 2
aggregates are stored, the elapsed minutes since the previous aggregate are
strictly positive, and |avg_now − avg_prev| per elapsed minute exceeds 5;
every produced anomaly is a rapid_change warning. -/
theorem rapid_change_iff (store : AggStore) (current_agg : AggregatedData)
    (hist : List AggregatedData)
    (h : alookup store (aggKey current_agg) = some hist) :
    ((detect_rate_of_change_anomaly store current_agg).isSome ↔
      (2 ≤ hist.length ∧
        0 < (current_agg.timestamp -
          (hist.getD (hist.length - 2) default).timestamp) / 60 ∧
        5 < |current_agg.average -
            (hist.getD (hist.length - 2) default).average| /
          ((current_agg.timestamp -
            (hist.getD (hist.length - 2) default).timestamp) / 60)))
    ∧ ∀ info, detect_rate_of_change_anomaly store current_agg = some info →
        info.type = "rapid_change" ∧ info.severity = "warning" := by
  unfold detect_rate_of_change_anomaly
  rw [h]
  dsimp only
  constructor
  · by_cases h2 : 2 ≤ hist.length
    · rw [if_pos h2]
      by_cases ht : 0 < (current_agg.timestamp -
          (hist.getD (hist.length - 2) default).timestamp) / 60
      · rw [if_pos ht]
        by_cases hrate : 5 < |current_agg.average -
            (hist.getD (hist.length - 2) default).average| /
          ((current_agg.timestamp -
            (hist.getD (hist.length - 2) default).timestamp) / 60)
        · rw [if_pos hrate]
          exact iff_of_true rfl ⟨h2, ht, hrate⟩
        · rw [if_neg hrate]
          exact iff_of_false (by simp) (fun hc => hrate hc.2.2)
      · rw [if_neg ht]
        exact iff_of_false (by simp) (fun hc => ht hc.2.1)
    · rw [if_neg h2]
      exact iff_of_false (by simp) (fun hc => h2 hc.1)
  · intro info hinfo
    split_ifs at hinfo
    · injection hinfo with hi
      subst hi
      exact ⟨rfl, rfl⟩

/-- C4 witness: two stored aggregates one minute apart with averages 10 and
20 (rate 10 units/minute > 5) make the detector fire, with type rapid_change
and severity warning; the theorem's hypotheses are discharged on this
concrete store. -/
theorem rapid_change_iff_witness :
    (detect_rate_of_change_anomaly exStoreC4 (mkAgg 20 60)).isSome ∧
    ∀ info, detect_rate_of_change_anomaly exStoreC4 (mkAgg 20 60) = some info →
      info.type = "rapid_change" ∧ info.severity = "warning" := by
  have h := rapid_change_iff exStoreC4 (mkAgg 20 60) [mkAgg 10 0, mkAgg 20 60] rfl
  refine ⟨h.1.mpr ?_, h.2⟩
  refine ⟨by norm_num, ?_, ?_⟩
  · norm_num [mkAgg, List.getD]
  · norm_num [mkAgg, List.getD]

/-- Auxiliary: the trend label is "increasing" exactly when the last value
exceeds the first (it is "decreasing" otherwise). -/
theorem trendLabel_increasing_iff (values : List ℚ) :
    trendLabel values = "increasing" ↔ values.headD 0 < values.getLastD 0 := by
  unfold trendLabel
  by_cases h : values.headD 0 < values.getLastD 0
  · rw [if_pos h]
    exact iff_of_true rfl h
  · rw [if_neg h]
    exact iff_of_false (by decide) h

/-- C5: with `hist` the stored aggregate list for the fresh aggregate's key
(at least the fresh aggregate itself is stored), a sustained_trend anomaly
is produced iff at least 5 aggregates are stored and the averages of the
last 5 are strictly increasing at every consecutive step, or strictly
decreasing at every consecutive step; every produced anomaly is a
sustained_trend info whose direction label is "increasing" exactly when the
last of those averages exceeds the first. -/
theorem sustained_trend_iff (store : AggStore) (current_agg : AggregatedData)
    (hist : List AggregatedData)
    (h : alookup store (aggKey current_agg) = some hist) :
    ((detect_trend_anomaly store current_agg).isSome ↔
      (5 ≤ hist.length ∧
        (List.Chain' (fun a b => a < b)
            ((hist.drop (hist.length - 5)).map (fun agg => agg.average)) ∨
          List.Chain' (fun a b => b < a)
            ((hist.drop (hist.length - 5)).map (fun agg => agg.average)))))
    ∧ ∀ info, detect_trend_anomaly store current_agg = some info →
        info.type = "sustained_trend" ∧ info.severity = "info" ∧
        info.message = "Sustained " ++
          trendLabel ((hist.drop (hist.length - 5)).map (fun agg => agg.average)) ++
          " trend in " ++ sensorTypeValue current_agg.sensor_type ∧
        (trendLabel ((hist.drop (hist.length - 5)).map (fun agg => agg.average))
            = "increasing" ↔
          ((hist.drop (hist.length - 5)).map (fun agg => agg.average)).headD 0 <
            ((hist.drop (hist.length - 5)).map (fun agg => agg.average)).getLastD 0) := by
  unfold detect_trend_anomaly
  rw [h]
  dsimp only
  constructor
  · by_cases h5 : 5 ≤ hist.length
    · rw [if_pos h5]
      by_cases hmono : List.Chain' (fun a b => a < b)
            ((hist.drop (hist.length - 5)).map (fun agg => agg.average)) ∨
          List.Chain' (fun a b => b < a)
            ((hist.drop (hist.length - 5)).map (fun agg => agg.average))
      · rw [if_pos hmono]
        exact iff_of_true rfl ⟨h5, hmono⟩
      · rw [if_neg hmono]
        exact iff_of_false (by simp) (fun hc => hmono hc.2)
    · rw [if_neg h5]
      exact iff_of_false (by simp) (fun hc => h5 hc.1)
  · intro info hinfo
    split_ifs at hinfo
    · injection hinfo with hi
      subst hi
      exact ⟨rfl, rfl, rfl, trendLabel_increasing_iff _⟩

/-- C5 witness: five stored aggregates with averages [1, 2, 3, 4, 5] produce
a sustained_trend info anomaly labelled "increasing", while averages
[5, 3, 3, 4, 5] produce none; the theorem's hypotheses are discharged on
these stores. -/
theorem sustained_trend_iff_witness :
    (detect_trend_anomaly exStoreC5 (mkAgg 5 240)).isSome ∧
    (∀ info, detect_trend_anomaly exStoreC5 (mkAgg 5 240) = some info →
      info.message = "Sustained increasing trend in temperature") ∧
    detect_trend_anomaly exStoreC5n (mkAgg 5 240) = none := by
  have hinc := sustained_trend_iff exStoreC5 (mkAgg 5 240)
    [mkAgg 1 0, mkAgg 2 60, mkAgg 3 120, mkAgg 4 180, mkAgg 5 240] rfl
  have hnon := sustained_trend_iff exStoreC5n (mkAgg 5 240)
    [mkAgg 5 0, mkAgg 3 60, mkAgg 3 120, mkAgg 4 180, mkAgg 5 240] rfl
  refine ⟨?_, ?_, ?_⟩
  · refine hinc.1.mpr ⟨by norm_num, Or.inl ?_⟩
    norm_num [mkAgg, List.chain'_cons, List.chain'_singleton]
  · intro info hinfo
    obtain ⟨-, -, hmsg, hlab⟩ := hinc.2 info hinfo
    rw [hmsg, hlab.mpr (by norm_num [mkAgg])]
    rfl
  · rw [← Option.not_isSome_iff_eq_none]
    intro hsome
    obtain ⟨-, hmono⟩ := hnon.1.mp hsome
    rcases hmono with hm | hm <;>
      norm_num [mkAgg, List.chain'_cons, List.chain'_singleton] at hm

/-- Auxiliary: a produced aggregate's timestamp is precisely the
`datetime.now()` sample of the `aggregate_data` call that built it. -/
theorem aggregate_data_timestamp (buffer : RawBuffer) (st : SensorType)
    (loc w : String) (now : ℚ) (agg : AggregatedData)
    (h : aggregate_data buffer st loc w now = some agg) : agg.timestamp = now := by
  unfold aggregate_data at h
  cases hb : alookup buffer (st, loc) with
  | none => rw [hb] at h; exact Option.noConfusion h
  | some readings =>
    rw [hb] at h
    cases hw : alookup aggregation_windows w with
    | none => rw [hw] at h; exact Option.noConfusion h
    | some wsec =>
      rw [hw] at h
      dsimp only at h
      by_cases hne : (window_readings readings wsec now).isEmpty = true
      · rw [if_pos hne] at h
        exact Option.noConfusion h
      · rw [if_neg hne] at h
        injection h with h
        subst h
        rfl

/-- C6 counterexample: on a buffer with one fresh reading and a clock that
advances 10 seconds between calls, one periodic-aggregation tick produces
aggregates with different timestamps (the "1min" aggregate carries 0, the
"5min" aggregate carries 10), refuting the claim that every aggregate of a
tick carries one shared timestamp. -/
theorem tick_timestamps_counterexample :
    ¬ ∀ a ∈ run_periodic_aggregation_aggs exBufferC6 exNowsC6,
        ∀ b ∈ run_periodic_aggregation_aggs exBufferC6 exNowsC6,
        a.timestamp = b.timestamp := by
  intro hall
  have e1 : aggregate_data exBufferC6 SensorType.temperature "gh1" "1min"
      (exNowsC6 0) = some exAggC6a := by
    norm_num [aggregate_data, alookup, aggregation_windows, exBufferC6,
      exNowsC6, mkReading, window_readings, window_values, window_qualities,
      listMin, listMax, calculate_std_dev_sq, exAggC6a]
  have e2 : aggregate_data exBufferC6 SensorType.temperature "gh1" "5min"
      (exNowsC6 1) = some exAggC6b := by
    simp [aggregate_data, alookup, aggregation_windows, exBufferC6,
      exNowsC6, mkReading, window_readings, window_values, window_qualities,
      listMin, listMax, calculate_std_dev_sq, exAggC6b] <;> norm_num
  have m1 : exAggC6a ∈ run_periodic_aggregation_aggs exBufferC6 exNowsC6 := by
    unfold run_periodic_aggregation_aggs
    exact List.mem_filterMap.mpr
      ⟨(0, (SensorType.temperature, "gh1", "1min")), by decide, e1⟩
  have m2 : exAggC6b ∈ run_periodic_aggregation_aggs exBufferC6 exNowsC6 := by
    unfold run_periodic_aggregation_aggs
    exact List.mem_filterMap.mpr
      ⟨(1, (SensorType.temperature, "gh1", "5min")), by decide, e2⟩
  have h01 := hall exAggC6a m1 exAggC6b m2
  norm_num [exAggC6a, exAggC6b] at h01

/-- C6 amended: each `aggregate_data` call of a tick samples
`datetime.now()` itself, and a produced aggregate's timestamp is exactly its
own call's sample (which is also the instant its window filter uses); hence
the aggregates of one tick all share a timestamp t when the clock reports t
at every call of the tick, but not in general. -/
theorem tick_timestamp_per_call (buffer : RawBuffer) (nows : ℕ → ℚ) :
    (∀ a ∈ run_periodic_aggregation_aggs buffer nows, ∃ i, a.timestamp = nows i)
    ∧ ∀ t : ℚ, (∀ i, nows i = t) →
        ∀ a ∈ run_periodic_aggregation_aggs buffer nows, a.timestamp = t := by
  constructor
  · intro a ha
    unfold run_periodic_aggregation_aggs at ha
    obtain ⟨p, -, hpa⟩ := List.mem_filterMap.mp ha
    exact ⟨p.1, aggregate_data_timestamp _ _ _ _ _ _ hpa⟩
  · intro t ht a ha
    unfold run_periodic_aggregation_aggs at ha
    obtain ⟨p, -, hpa⟩ := List.mem_filterMap.mp ha
    rw [aggregate_data_timestamp _ _ _ _ _ _ hpa, ht]

/-- Auxiliary: the descending-by-timestamp comparator is transitive. -/
theorem anomDescLe_trans : ∀ a b c : Anomaly,
    decide (b.timestamp ≤ a.timestamp) = true →
    decide (c.timestamp ≤ b.timestamp) = true →
    decide (c.timestamp ≤ a.timestamp) = true := by
  intro a b c hab hbc
  rw [decide_eq_true_eq] at hab hbc
  rw [decide_eq_true_eq]
  exact le_trans hbc hab

/-- Auxiliary: the descending-by-timestamp comparator is total. -/
theorem anomDescLe_total : ∀ a b : Anomaly,
    (decide (b.timestamp ≤ a.timestamp) || decide (a.timestamp ≤ b.timestamp))
      = true := by
  intro a b
  rcases le_total b.timestamp a.timestamp with h | h
  · rw [decide_eq_true h]
    rfl
  · rw [decide_eq_true h]
    simp

/-- C7: the anomaly-history cleanup leaves at most-100 histories unchanged
(in particular it is a silent no-op on an empty engine); with more than 100
anomalies stored it keeps exactly 100, each of them one of the stored
anomalies, and each kept anomaly's timestamp is at least every discarded
anomaly's timestamp (the 100 most recent survive). -/
theorem cleanup_anomalies_retention (anomalies : List Anomaly) :
    (anomalies.length ≤ 100 → cleanup_anomalies anomalies = anomalies)
    ∧ (100 < anomalies.length →
        (cleanup_anomalies anomalies).length = 100
        ∧ (∀ a ∈ cleanup_anomalies anomalies, a ∈ anomalies)
        ∧ (∀ a ∈ cleanup_anomalies anomalies,
            ∀ b ∈ (sortAnomaliesDesc anomalies).drop 100,
              b.timestamp ≤ a.timestamp))
    ∧ (∀ t : ℚ, cleanup_old_data [] [] [] t = ([], [], [])) := by
  refine ⟨fun hle => ?_, fun hgt => ?_, fun t => rfl⟩
  · unfold cleanup_anomalies
    rw [if_neg (not_lt.mpr hle)]
  · have hperm : (sortAnomaliesDesc anomalies).Perm anomalies :=
      List.mergeSort_perm anomalies _
    have hlen : (sortAnomaliesDesc anomalies).length = anomalies.length :=
      hperm.length_eq
    have hclean : cleanup_anomalies anomalies
        = (sortAnomaliesDesc anomalies).take 100 := by
      unfold cleanup_anomalies
      rw [if_pos hgt]
    refine ⟨?_, ?_, ?_⟩
    · rw [hclean, List.length_take, hlen]
      omega
    · intro a ha
      rw [hclean] at ha
      exact hperm.mem_iff.mp (List.mem_of_mem_take ha)
    · intro a ha b hb
      rw [hclean] at ha
      have hsorted : List.Pairwise
          (fun x y : Anomaly => decide (y.timestamp ≤ x.timestamp) = true)
          (sortAnomaliesDesc anomalies) :=
        List.sorted_mergeSort anomDescLe_trans anomDescLe_total anomalies
      rw [← List.take_append_drop 100 (sortAnomaliesDesc anomalies)] at hsorted
      have := (List.pairwise_append.mp hsorted).2.2 a ha b hb
      rwa [decide_eq_true_eq] at this

/-- C7 witness: 101 stored anomalies are cut down to exactly 100 by the
cleanup, while a 3-anomaly history is left unchanged; both hypotheses of the
theorem are discharged on these concrete histories. -/
theorem cleanup_anomalies_retention_witness :
    exAnoms101.length = 101 ∧ (cleanup_anomalies exAnoms101).length = 100 ∧
    exAnomsSmall.length = 3 ∧ cleanup_anomalies exAnomsSmall = exAnomsSmall := by
  have h101 : exAnoms101.length = 101 := by simp [exAnoms101]
  have h3 : exAnomsSmall.length = 3 := by simp [exAnomsSmall]
  refine ⟨h101, ((cleanup_anomalies_retention exAnoms101).2.1 ?_).1, h3,
    (cleanup_anomalies_retention exAnomsSmall).1 ?_⟩
  · rw [h101]
    norm_num
  · rw [h3]
    norm_num

/-- Auxiliary: dict lookup at a matching head. -/
theorem alookup_cons_eq {β : Type} (p : String × β) (t : List (String × β))
    (k : String) (h : p.1 = k) : alookup (p :: t) k = some p.2 := by
  unfold alookup
  rw [List.find?_cons_of_pos]
  · rfl
  · simpa using h

/-- Auxiliary: dict lookup skips a non-matching head. -/
theorem alookup_cons_ne {β : Type} (p : String × β) (t : List (String × β))
    (k : String) (h : p.1 ≠ k) : alookup (p :: t) k = alookup t k := by
  unfold alookup
  rw [List.find?_cons_of_neg]
  simpa using h

/-- Auxiliary: looking up a dict after updating the value stored at `k` in
place: the entry at `k` is transformed by `f`, every other key is untouched. -/
theorem alookup_map_update {β : Type} (l : List (String × β)) (k : String)
    (f : β → β) :
    alookup (l.map (fun p => if p.1 = k then (k, f p.2) else p)) k
      = (alookup l k).map f
    ∧ ∀ k2, k2 ≠ k →
        alookup (l.map (fun p => if p.1 = k then (k, f p.2) else p)) k2
          = alookup l k2 := by
  induction l with
  | nil => exact ⟨rfl, fun k2 _ => rfl⟩
  | cons p t ih =>
    constructor
    · by_cases hp : p.1 = k
      · rw [List.map_cons, if_pos hp, alookup_cons_eq (k, f p.2) _ k rfl,
          alookup_cons_eq p t k hp]
        rfl
      · rw [List.map_cons, if_neg hp, alookup_cons_ne p _ k hp,
          alookup_cons_ne p t k hp]
        exact ih.1
    · intro k2 hk2
      by_cases hp : p.1 = k
      · rw [List.map_cons, if_pos hp,
          alookup_cons_ne (k, f p.2) _ k2 (fun hc => hk2 hc.symm),
          alookup_cons_ne p t k2 (by rw [hp]; exact fun hc => hk2 hc.symm)]
        exact ih.2 k2 hk2
      · by_cases hpk2 : p.1 = k2
        · rw [List.map_cons, if_neg hp, alookup_cons_eq p _ k2 hpk2,
            alookup_cons_eq p t k2 hpk2]
        · rw [List.map_cons, if_neg hp, alookup_cons_ne p _ k2 hpk2,
            alookup_cons_ne p t k2 hpk2]
          exact ih.2 k2 hk2

/-- C8: a status update for an unregistered device_id is a complete no-op —
the device table is returned unchanged and no device_status_changed
notification is emitted (and, the function being total, no error is
raised) — while for a registered device_id exactly one notification is
emitted, the device's entry gets last_seen = now, the given status, and a
battery_level updated only when one is supplied, and every other device's
entry is untouched. -/
theorem update_device_status_spec (devices : DeviceTable)
    (device_id status : String) (battery_level : Option ℚ) (now : ℚ) :
    (alookup devices device_id = none →
      update_device_status devices device_id status battery_level now
        = (devices, []))
    ∧ ∀ d, alookup devices device_id = some d →
        (update_device_status devices device_id status battery_level now).2
          = [{ device_id := device_id, status := status,
               battery_level := battery_level, last_seen := now }]
        ∧ alookup
            (update_device_status devices device_id status battery_level now).1
            device_id
          = some { d with
                   last_seen := now
                   status := status
                   battery_level := battery_level.getD d.battery_level }
        ∧ ∀ other, other ≠ device_id →
            alookup
              (update_device_status devices device_id status battery_level now).1
              other = alookup devices other := by
  constructor
  · intro hnone
    unfold update_device_status
    rw [hnone]
  · intro d hd
    unfold update_device_status
    rw [hd]
    dsimp only
    refine ⟨rfl, ?_, ?_⟩
    · have h := (alookup_map_update devices device_id
        (fun d0 => { d0 with
                     last_seen := now
                     status := status
                     battery_level := battery_level.getD d0.battery_level })).1
      rw [hd] at h
      exact h
    · intro other hother
      exact (alookup_map_update devices device_id
        (fun d0 => { d0 with
                     last_seen := now
                     status := status
                     battery_level := battery_level.getD d0.battery_level })).2
        other hother

/-- C8 witness: on a table holding only "dev1", updating "ghost" returns the
table unchanged with no notification, while updating "dev1" to offline with
battery 40 emits one notification and rewrites last_seen/status/battery;
both branches of the theorem are discharged concretely. -/
theorem update_device_status_spec_witness :
    update_device_status exDevices "ghost" "offline" none 5 = (exDevices, []) ∧
    (update_device_status exDevices "dev1" "offline" (some 40) 5).2
      = [{ device_id := "dev1", status := "offline",
           battery_level := some 40, last_seen := 5 }] ∧
    alookup (update_device_status exDevices "dev1" "offline" (some 40) 5).1
        "dev1"
      = some { exDevice with
               last_seen := 5
               status := "offline"
               battery_level := 40 } := by
  have h1 := (update_device_status_spec exDevices "ghost" "offline" none 5).1 rfl
  have h2 := (update_device_status_spec exDevices "dev1" "offline" (some 40) 5).2
    exDevice rfl
  exact ⟨h1, h2.1, h2.2.1⟩

/-- C9: re-registering an already-registered device_id overwrites the entry
in place — the stored entry becomes status "online", battery 100,
registered_at = now, with the newly supplied type/location/capabilities/
address — without creating a duplicate: the device table's length, and
hence the get_device_status snapshot's length, is unchanged. -/
theorem register_overwrites (devices : DeviceTable)
    (device_id device_type location : String)
    (capabilities : List SensorType) (ip_address : Option String) (now : ℚ)
    (h : (alookup devices device_id).isSome = true) :
    (register_edge_device devices device_id device_type location capabilities
        ip_address now).1.length = devices.length
    ∧ (get_device_status (register_edge_device devices device_id device_type
        location capabilities ip_address now).1).length
      = (get_device_status devices).length
    ∧ alookup (register_edge_device devices device_id device_type location
        capabilities ip_address now).1 device_id
      = some { type := device_type
               location := location
               capabilities := capabilities
               ip_address := ip_address
               last_seen := now
               status := "online"
               battery_level := 100
               registered_at := now }
    ∧ (register_edge_device devices device_id device_type location capabilities
        ip_address now).2
      = [{ device_id := device_id, status := "registered",
           location := location,
           capabilities := capabilities.map sensorTypeValue }] := by
  unfold register_edge_device dictInsert
  rw [if_pos h]
  refine ⟨List.length_map _ _, ?_, ?_, rfl⟩
  · unfold get_device_status
    rw [List.length_map, List.length_map, List.length_map]
  · have hm := (alookup_map_update devices device_id
      (fun _ => { type := device_type
                  location := location
                  capabilities := capabilities
                  ip_address := ip_address
                  last_seen := now
                  status := "online"
                  battery_level := 100
                  registered_at := now })).1
    obtain ⟨d, hd⟩ := Option.isSome_iff_exists.mp h
    rw [hd] at hm
    exact hm

/-- C9 witness: re-registering "dev1" with a different type and location
leaves the table length (1) unchanged and rewrites the stored entry; the
theorem's hypothesis is discharged on this concrete table. -/
theorem register_overwrites_witness :
    (register_edge_device exDevices "dev1" "node2" "gh2" [] none 9).1.length
      = exDevices.length ∧
    alookup (register_edge_device exDevices "dev1" "node2" "gh2" [] none 9).1
        "dev1"
      = some { type := "node2", location := "gh2", capabilities := [],
               ip_address := none, last_seen := 9, status := "online",
               battery_level := 100, registered_at := 9 } := by
  have h := register_overwrites exDevices "dev1" "node2" "gh2" [] none 9 rfl
  exact ⟨h.1, h.2.2.1⟩

/-- C10: in the full metrics query (no sensor_type/location filter), every
window key appearing anywhere in the nested result is one of "1min",
"5min", "15min" — never "1h" — and the top-level keys are exactly the
locations of the registered devices, so readings buffered under a location
with no registered device never appear. -/
theorem metrics_windows_and_locations (devices : DeviceTable)
    (buffer : RawBuffer) (nows : ℕ → ℚ) :
    (∀ e ∈ get_aggregated_metrics devices buffer nows, ∀ se ∈ e.2,
        ∀ we ∈ se.2, we.1 ∈ metricWindows ∧ we.1 ≠ "1h")
    ∧ ∀ loc : String,
        (∃ e ∈ get_aggregated_metrics devices buffer nows, e.1 = loc) ↔
          ∃ p ∈ devices, p.2.location = loc := by
  have hkeys : (get_aggregated_metrics devices buffer nows).map (fun e => e.1)
      = (devices.map (fun p => p.2.location)).dedup := by
    unfold get_aggregated_metrics
    rw [List.map_map]
    exact List.enum_map_snd _
  constructor
  · intro e he se hse we hwe
    unfold get_aggregated_metrics at he
    obtain ⟨lp, -, rfl⟩ := List.mem_map.mp he
    obtain ⟨sp, -, rfl⟩ := List.mem_map.mp hse
    obtain ⟨wp, hwp, hw⟩ := List.mem_filterMap.mp hwe
    obtain ⟨i, w⟩ := wp
    obtain ⟨agg, -, hwe2⟩ := Option.map_eq_some'.mp hw
    have hwin : w ∈ metricWindows := by
      rw [List.enum_eq_zip_range] at hwp
      exact (List.of_mem_zip hwp).2
    have hnot1h : ∀ w2 ∈ metricWindows, w2 ≠ "1h" := by decide
    rw [← hwe2]
    exact ⟨hwin, hnot1h w hwin⟩
  · intro loc
    constructor
    · rintro ⟨e, he, rfl⟩
      have h1 : e.1 ∈ (get_aggregated_metrics devices buffer nows).map
          (fun e => e.1) := List.mem_map_of_mem _ he
      rw [hkeys, List.mem_dedup] at h1
      obtain ⟨p, hp, hploc⟩ := List.mem_map.mp h1
      exact ⟨p, hp, hploc⟩
    · rintro ⟨p, hp, hploc⟩
      have h1 : loc ∈ (devices.map (fun p => p.2.location)).dedup :=
        List.mem_dedup.mpr (List.mem_map.mpr ⟨p, hp, hploc⟩)
      rw [← hkeys] at h1
      obtain ⟨e, he, hel⟩ := List.mem_map.mp h1
      exact ⟨e, he, hel⟩

/-- C10 witness: with one device registered at "gh1" and readings buffered
only under the unregistered location "ghost", the metrics result has a
top-level entry for "gh1" and none for "ghost". -/
theorem metrics_windows_and_locations_witness :
    (∃ e ∈ get_aggregated_metrics exDevices exBufferC10 exNowsConst,
      e.1 = "gh1") ∧
    ¬ ∃ e ∈ get_aggregated_metrics exDevices exBufferC10 exNowsConst,
      e.1 = "ghost" := by
  constructor
  · exact ((metrics_windows_and_locations exDevices exBufferC10
      exNowsConst).2 "gh1").mpr ⟨("dev1", exDevice), List.mem_singleton_self _, rfl⟩
  · intro hex
    obtain ⟨p, hp, hploc⟩ := ((metrics_windows_and_locations exDevices
      exBufferC10 exNowsConst).2 "ghost").mp hex
    have hp2 : p = ("dev1", exDevice) := by simpa [exDevices] using hp
    subst hp2
    exact absurd hploc (by decide)
